import Mathlib

/-
  Shallow embedding of the sequence-mcp repository (src/sequence_mcp):
  - models.py : pydantic DTOs and the SequenceError exception type
  - client.py : SequenceClient (get_accounts, trigger_rule, close,
                _handle_error_response)
  - server.py : the MCP tool dispatcher (call_tool, handle_get_accounts,
                handle_trigger_rule)

  The HTTP transport is modelled as an oracle: each client operation is a
  pure function of the client configuration and of the HttpResponse the
  transport would return, and it records the list of requests it issued.
  Python exceptions crossing the client boundary are modelled by the
  PyError sum type.  Python floats are modelled by Rat: the code performs
  no floating-point arithmetic, balances only pass through verbatim.
-/

namespace SequenceMcp

/-- JSON values, as produced by Python json parsing.  Objects are
association lists (Python dicts with unique keys). -/
inductive Json where
  | null : Json
  | bool (b : Bool) : Json
  | num (q : Rat) : Json
  | str (s : String) : Json
  | arr (elems : List Json) : Json
  | obj (members : List (String × Json)) : Json

/-- Python dict lookup: d.get(k) -/
def jget (members : List (String × Json)) (k : String) : Option Json :=
  (members.find? (fun p => p.1 == k)).map (fun p => p.2)

/-- Python truthiness of a JSON value (bool(x)). -/
def pyTruthy : Json → Bool
  | .null => false
  | .bool b => b
  | .num q => if q = 0 then false else true
  | .str s => !s.isEmpty
  | .arr elems => !elems.isEmpty
  | .obj members => !members.isEmpty

/-- Python truthiness of a possibly-absent JSON value (absent is falsy). -/
def pyTruthyOpt : Option Json → Bool
  | none => false
  | some j => pyTruthy j

/-- Python truthiness of an optional string (None and the empty string are
falsy): the check performed by `if not self.access_token` and by
`if idempotency_key`. -/
def strTruthy : Option String → Bool
  | none => false
  | some s => !s.isEmpty

/-- models.AccountBalance: nullable amount (alias amountInDollars) and an
optional error string defaulting to None. -/
structure AccountBalance where
  amount_in_dollars : Option Rat
  error : Option String

/-- models.Account. The `type` field is constrained by the parser to the
Literal values Pod, Income Source, Account. -/
structure Account where
  id : String
  name : String
  balance : AccountBalance
  type : String

/-- models.AccountsResponseData. -/
structure AccountsResponseData where
  accounts : List Account
  errors : List String

/-- models.AccountsResponse. -/
structure AccountsResponse where
  message : String
  request_id : String
  data : AccountsResponseData

/-- models.TriggerRuleResponseData. -/
structure TriggerRuleResponseData where
  request_id : String

/-- models.TriggerRuleResponse. -/
structure TriggerRuleResponse where
  code : String
  message : String
  data : TriggerRuleResponseData

/-- models.SequenceError: code and message are whatever JSON values the
error body carried (the constructor stores them verbatim), plus an
optional transport status code. -/
structure SequenceError where
  code : Json
  message : Json
  status_code : Option Nat

/-
  Pydantic validation, modelled per field.  A `none` result is a pydantic
  ValidationError.  Lax-mode numeric-string coercion (e.g. the string
  "1.5" accepted for a float field) is not modelled; no claim depends on
  it and no value in this development exercises it.
-/

/-- Validate a required str field. -/
def vStr : Json → Option String
  | .str s => some s
  | _ => none

/-- Validate a nullable str field (str or None). -/
def vStrOpt : Json → Option (Option String)
  | .null => some none
  | .str s => some (some s)
  | _ => none

/-- Validate a nullable float field (float or None). -/
def vNumOpt : Json → Option (Option Rat)
  | .null => some none
  | .num q => some (some q)
  | _ => none

/-- Validate a list field elementwise. -/
def vList (f : Json → Option α) : Json → Option (List α)
  | .arr elems => elems.mapM f
  | _ => none

/-- AccountBalance.model_validate: amountInDollars is required (by alias)
and nullable; error is optional, defaulting to None. -/
def vAccountBalance : Json → Option AccountBalance
  | .obj members => do
      let amount ← jget members "amountInDollars"
      let amount ← vNumOpt amount
      let error ← match jget members "error" with
        | none => some none
        | some v => vStrOpt v
      some { amount_in_dollars := amount, error := error }
  | _ => none

/-- Account.model_validate: id, name, balance required; type must be one of
the three Literal values. -/
def vAccount : Json → Option Account
  | .obj members => do
      let id ← jget members "id" >>= vStr
      let name ← jget members "name" >>= vStr
      let balance ← jget members "balance" >>= vAccountBalance
      let ty ← jget members "type" >>= vStr
      if ty == "Pod" || ty == "Income Source" || ty == "Account" then
        some { id := id, name := name, balance := balance, type := ty }
      else
        none
  | _ => none

/-- AccountsResponseData.model_validate: both lists default to empty. -/
def vAccountsResponseData : Json → Option AccountsResponseData
  | .obj members => do
      let accounts ← match jget members "accounts" with
        | none => some []
        | some v => vList vAccount v
      let errors ← match jget members "errors" with
        | none => some []
        | some v => vList vStr v
      some { accounts := accounts, errors := errors }
  | _ => none

/-- AccountsResponse.model_validate: message, requestId (alias), data. -/
def vAccountsResponse : Json → Option AccountsResponse
  | .obj members => do
      let message ← jget members "message" >>= vStr
      let request_id ← jget members "requestId" >>= vStr
      let data ← jget members "data" >>= vAccountsResponseData
      some { message := message, request_id := request_id, data := data }
  | _ => none

/-- TriggerRuleResponse.model_validate: code, message, data.requestId. -/
def vTriggerRuleResponse : Json → Option TriggerRuleResponse
  | .obj members => do
      let code ← jget members "code" >>= vStr
      let message ← jget members "message" >>= vStr
      let data ← jget members "data"
      match data with
      | .obj dm => do
          let request_id ← jget dm "requestId" >>= vStr
          some { code := code, message := message,
                 data := { request_id := request_id } }
      | _ => none
  | _ => none

/-
  client.py
-/

/-- A transport response: status code, raw body text, and the result of
response.json() — some j when the body text parses as JSON j, none when
json decoding raises. -/
structure HttpResponse where
  status_code : Nat
  body_text : String
  body_json : Option Json

/-- The members of the response body when it parsed as a JSON object;
none when the body was not JSON or parsed to a non-object (on which
dict access raises and falls into the except branch). -/
def bodyObj : Option Json → Option (List (String × Json))
  | some (.obj members) => some members
  | _ => none

/-- SequenceClient._handle_error_response: parse the body as an object and
take its code and message with dict-get defaults; on any parse failure
synthesize HTTP_ERROR with the status and raw body in the message. -/
def handle_error_response (r : HttpResponse) : SequenceError :=
  match bodyObj r.body_json with
  | some members =>
      { code := (jget members "code").getD (.str "UNKNOWN_ERROR")
        message := (jget members "message").getD (.str "Unknown error")
        status_code := some r.status_code }
  | none =>
      { code := .str "HTTP_ERROR"
        message := .str ("HTTP " ++ toString r.status_code ++ ": " ++ r.body_text)
        status_code := some r.status_code }

/-- An outgoing HTTP request (all requests in this client are POST). -/
structure HttpRequest where
  path : String
  headers : List (String × String)
  body : Json

/-- Header lookup in an outgoing request. -/
def headerGet (headers : List (String × String)) (k : String) : Option String :=
  (headers.find? (fun p => p.1 == k)).map (fun p => p.2)

/-- Python exceptions that can cross the client boundary. The exact
library-formatted text of json-decode and pydantic validation errors is
not modelled (it is not load-bearing anywhere in the code). -/
inductive PyError where
  | valueError (msg : String) : PyError
  | sequenceError (e : SequenceError) : PyError
  | jsonDecodeError : PyError
  | validationError : PyError

/-- True when an outcome is a raised SequenceError. -/
def isSequenceErrorOutcome : Except PyError α → Bool
  | .error (.sequenceError _) => true
  | _ => false

/-- True when an outcome is any raised exception. -/
def isFailure : Except PyError α → Bool
  | .error _ => true
  | .ok _ => false

/-- Result of one client operation: the requests it issued on the wire and
its outcome (a return value or a raised exception). -/
structure ClientResult (α : Type) where
  requests : List HttpRequest
  outcome : Except PyError α

/-- The request get_accounts sends. -/
def getAccountsRequest (token : String) : HttpRequest :=
  { path := "/accounts"
    headers := [("x-sequence-access-token", "Bearer " ++ token),
                ("Content-Type", "application/json")]
    body := .obj [] }

/-- Success-path body handling of get_accounts: response.json() then
AccountsResponse.model_validate, returning data.accounts. -/
def accountsSuccess (body : Option Json) : Except PyError (List Account) :=
  match body with
  | none => .error .jsonDecodeError
  | some j =>
      match vAccountsResponse j with
      | some ar => .ok ar.data.accounts
      | none => .error .validationError

/-- SequenceClient.get_accounts, as a function of the configured access
token and of the transport response. -/
def get_accounts (access_token : Option String) (resp : HttpResponse) :
    ClientResult (List Account) :=
  if strTruthy access_token = false then
    { requests := []
      outcome := .error (.valueError "Access token is required for fetching accounts") }
  else
    { requests := [getAccountsRequest (access_token.getD "")]
      outcome :=
        if resp.status_code ≠ 200 then
          .error (.sequenceError (handle_error_response resp))
        else
          accountsSuccess resp.body_json }

/-- The body trigger_rule sends: payload or empty-object when payload is
absent or falsy (the expression payload or {}). -/
def effectivePayload : Option Json → Json
  | none => .obj []
  | some p => if pyTruthy p then p else .obj []

/-- The request trigger_rule sends: the idempotency-key header is added
only when the key is truthy (if idempotency_key). -/
def triggerRequest (rule_id api_secret : String) (payload : Option Json)
    (idempotency_key : Option String) : HttpRequest :=
  { path := "/remote-api/rules/" ++ rule_id ++ "/trigger"
    headers :=
      [("x-sequence-signature", "Bearer " ++ api_secret),
       ("Content-Type", "application/json")] ++
      (match idempotency_key with
       | some k => if !k.isEmpty then [("idempotency-key", k)] else []
       | none => [])
    body := effectivePayload payload }

/-- Success-path body handling of trigger_rule: response.json() then
TriggerRuleResponse.model_validate. -/
def triggerSuccess (body : Option Json) : Except PyError TriggerRuleResponse :=
  match body with
  | none => .error .jsonDecodeError
  | some j =>
      match vTriggerRuleResponse j with
      | some tr => .ok tr
      | none => .error .validationError

/-- SequenceClient.trigger_rule, as a function of its arguments and of the
transport response. -/
def trigger_rule (rule_id api_secret : String) (payload : Option Json)
    (idempotency_key : Option String) (resp : HttpResponse) :
    ClientResult TriggerRuleResponse :=
  { requests := [triggerRequest rule_id api_secret payload idempotency_key]
    outcome :=
      if resp.status_code ≠ 200 then
        .error (.sequenceError (handle_error_response resp))
      else
        triggerSuccess resp.body_json }

/-- The connection-lifecycle state of a SequenceClient: whether an
underlying httpx client currently exists. -/
structure SequenceClientState where
  access_token : Option String
  conn : Bool

/-- SequenceClient.close: aclose and drop the underlying client when one
exists, otherwise do nothing.  The Bool records whether aclose ran. -/
def close (st : SequenceClientState) : SequenceClientState × Bool :=
  if st.conn then ({ st with conn := false }, true) else (st, false)

/-
  server.py — the tool dispatcher.  TextContent payloads are either a
  plain string (the unknown-tool branch) or json.dumps of an object,
  modelled structurally by Rendered.
-/

/-- One TextContent item: plain text, or json.dumps of a JSON object. -/
inductive Rendered where
  | plainText (s : String) : Rendered
  | jsonPayload (j : Json) : Rendered

/-- The minimal error envelope used by the dispatcher for local validation
failures and the catch-all branch. -/
def errorEnvelope (msg : String) : Json :=
  .obj [("error", .bool true), ("message", .str msg)]

/-- The error envelope rendered for a caught SequenceError: error, code,
message, status_code. -/
def sequenceErrorEnvelope (e : SequenceError) : Json :=
  .obj [("error", .bool true), ("code", e.code), ("message", e.message),
        ("status_code", match e.status_code with
          | some n => .num n
          | none => .null)]

/-- True when a rendered item is an error-shaped envelope: a JSON object
carrying an error member equal to true. -/
def isErrorShaped : Rendered → Bool
  | .jsonPayload (.obj members) =>
      match jget members "error" with
      | some (.bool true) => true
      | _ => false
  | _ => false

/-- str() of a schema-typed string argument.  The tool input schema types
rule_id, api_secret and idempotency_key as strings; non-string JSON
arguments are not modelled beyond their (empty) string content. -/
def jsonAsStr : Json → String
  | .str s => s
  | _ => ""

/-- Per-account object rendered by handle_get_accounts. -/
def renderAccount (a : Account) : Json :=
  .obj [("id", .str a.id), ("name", .str a.name), ("type", .str a.type),
        ("balance_dollars", match a.balance.amount_in_dollars with
          | some q => .num q
          | none => .null),
        ("balance_error", match a.balance.error with
          | some s => .str s
          | none => .null)]

/-- Success payload of handle_get_accounts. -/
def renderAccounts (accounts : List Account) : Json :=
  .obj [("accounts", .arr (accounts.map renderAccount)),
        ("total_accounts", .num accounts.length)]

/-- Result of one handler: whether the client was invoked, the requests
issued, and either the rendered TextContent or a propagating exception. -/
structure HandlerResult where
  clientCalled : Bool
  requests : List HttpRequest
  outcome : Except PyError Rendered

/-- server.handle_get_accounts, as a function of the ambient
SEQUENCE_ACCESS_TOKEN value and the transport response. -/
def handle_get_accounts (env_token : Option String) (resp : HttpResponse) :
    HandlerResult :=
  if strTruthy env_token = false then
    { clientCalled := false, requests := []
      outcome := .ok (.jsonPayload
        (errorEnvelope "SEQUENCE_ACCESS_TOKEN environment variable is not set")) }
  else
    let r := get_accounts env_token resp
    { clientCalled := true, requests := r.requests
      outcome :=
        match r.outcome with
        | .ok accounts => .ok (.jsonPayload (renderAccounts accounts))
        | .error e => .error e }

/-- Success payload of handle_trigger_rule. -/
def renderTrigger (tr : TriggerRuleResponse) : Json :=
  .obj [("success", .bool true), ("code", .str tr.code),
        ("message", .str tr.message), ("request_id", .str tr.data.request_id)]

/-- server.handle_trigger_rule: validate rule_id then api_secret against
Python truthiness, and only then construct a client and call trigger_rule. -/
def handle_trigger_rule (args : List (String × Json)) (resp : HttpResponse) :
    HandlerResult :=
  let rule_id := jget args "rule_id"
  let api_secret := jget args "api_secret"
  let payload := (jget args "payload").getD (.obj [])
  let idempotency_key := jget args "idempotency_key"
  if pyTruthyOpt rule_id = false then
    { clientCalled := false, requests := []
      outcome := .ok (.jsonPayload (errorEnvelope "rule_id is required")) }
  else if pyTruthyOpt api_secret = false then
    { clientCalled := false, requests := []
      outcome := .ok (.jsonPayload (errorEnvelope "api_secret is required")) }
  else
    let r := trigger_rule (jsonAsStr (rule_id.getD .null))
      (jsonAsStr (api_secret.getD .null)) (some payload)
      (idempotency_key.map jsonAsStr) resp
    { clientCalled := true, requests := r.requests
      outcome :=
        match r.outcome with
        | .ok tr => .ok (.jsonPayload (renderTrigger tr))
        | .error e => .error e }

/-- str(e) for the dispatcher catch-all branch.  The library-formatted
text of json-decode and pydantic errors is represented by fixed tags. -/
def pyErrStr : PyError → String
  | .valueError msg => msg
  | .sequenceError e => jsonAsStr e.code ++ ": " ++ jsonAsStr e.message
  | .jsonDecodeError => "json decode error"
  | .validationError => "validation error"

/-- Result of server.call_tool: the dispatcher always returns rendered
content, never raises. -/
structure DispatchResult where
  clientCalled : Bool
  requests : List HttpRequest
  rendered : Rendered

/-- Convert a handler result into the dispatcher result, applying the
except SequenceError and except Exception branches of call_tool. -/
def renderHandler (h : HandlerResult) : DispatchResult :=
  { clientCalled := h.clientCalled, requests := h.requests
    rendered :=
      match h.outcome with
      | .ok r => r
      | .error (.sequenceError e) => .jsonPayload (sequenceErrorEnvelope e)
      | .error e => .jsonPayload (errorEnvelope (pyErrStr e)) }

/-- server.call_tool: dispatch on the tool name; unknown names return a
plain textual notice. -/
def call_tool (name : String) (args : List (String × Json))
    (env_token : Option String) (resp : HttpResponse) : DispatchResult :=
  if name = "get_accounts" then
    renderHandler (handle_get_accounts env_token resp)
  else if name = "trigger_rule" then
    renderHandler (handle_trigger_rule args resp)
  else
    { clientCalled := false, requests := []
      rendered := .plainText ("Unknown tool: " ++ name) }

/-- Substring containment, used to state that a message names a status
code or a field. -/
def ContainsSub (hay needle : String) : Prop :=
  ∃ pre suf : List Char, pre ++ needle.data ++ suf = hay.data

/-
  Shared helper lemmas.
-/

/-- The success-path parser of get_accounts never produces a
SequenceError. -/
theorem isSeqErr_accountsSuccess (body : Option Json) :
    isSequenceErrorOutcome (accountsSuccess body) = false := by
  cases body with
  | none => rfl
  | some j =>
      simp only [accountsSuccess]
      cases vAccountsResponse j <;> rfl

/-- The success-path parser of trigger_rule never produces a
SequenceError. -/
theorem isSeqErr_triggerSuccess (body : Option Json) :
    isSequenceErrorOutcome (triggerSuccess body) = false := by
  cases body with
  | none => rfl
  | some j =>
      simp only [triggerSuccess]
      cases vTriggerRuleResponse j <;> rfl

/-
  Claims.
-/

/-- C9: closing a client that was never opened is a no-op that performs no
aclose call, and closing twice is equivalent to closing once: the second
close leaves the state unchanged and performs no aclose call. -/
theorem c9_close_idempotent (st : SequenceClientState) :
    (st.conn = false → close st = (st, false)) ∧
    (close (close st).1).1 = (close st).1 ∧
    (close (close st).1).2 = false := by
  cases hc : st.conn <;> simp [close, hc]

/-- C9 witness: evaluated on a never-opened client state. -/
theorem c9_close_idempotent_witness :
    close { access_token := none, conn := false } =
      ({ access_token := none, conn := false }, false) ∧
    (close (close { access_token := none, conn := true }).1).1 =
      (close { access_token := none, conn := true }).1 :=
  ⟨(c9_close_idempotent { access_token := none, conn := false }).1 rfl,
   (c9_close_idempotent { access_token := none, conn := true }).2.1⟩

/-- C10: with a configured token, any response whose status is not exactly
200 (201 and 204 included) makes both operations raise the normalized
SequenceError, and when the status is 200 neither operation raises a
SequenceError: the success-parsing path is taken only at 200. -/
theorem c10_only_200_succeeds (tok : Option String) (resp : HttpResponse)
    (rid sec : String) (pl : Option Json) (key : Option String)
    (htok : strTruthy tok = true) :
    (resp.status_code ≠ 200 →
      (get_accounts tok resp).outcome =
        .error (.sequenceError (handle_error_response resp)) ∧
      (trigger_rule rid sec pl key resp).outcome =
        .error (.sequenceError (handle_error_response resp))) ∧
    (resp.status_code = 200 →
      isSequenceErrorOutcome (get_accounts tok resp).outcome = false ∧
      isSequenceErrorOutcome (trigger_rule rid sec pl key resp).outcome = false) := by
  constructor
  · intro h200
    simp [get_accounts, trigger_rule, htok, h200]
  · intro h200
    simp [get_accounts, trigger_rule, htok, h200,
          isSeqErr_accountsSuccess, isSeqErr_triggerSuccess]

/-- C10 witness: evaluated at statuses 201 and 200. -/
theorem c10_only_200_succeeds_witness :
    (get_accounts (some "t")
        { status_code := 201, body_text := "created", body_json := none }).outcome =
      .error (.sequenceError (handle_error_response
        { status_code := 201, body_text := "created", body_json := none })) ∧
    isSequenceErrorOutcome (get_accounts (some "t")
        { status_code := 200, body_text := "ok", body_json := none }).outcome = false :=
  ⟨((c10_only_200_succeeds (some "t")
      { status_code := 201, body_text := "created", body_json := none }
      "r" "s" none none rfl).1 (by decide)).1,
   ((c10_only_200_succeeds (some "t")
      { status_code := 200, body_text := "ok", body_json := none }
      "r" "s" none none rfl).2 rfl).1⟩

/-- C7: an operation name other than get_accounts and trigger_rule makes
call_tool return a plain textual unknown-tool notice, with no client call
and no request, and the rendered content is not an error-shaped envelope. -/
theorem c7_unknown_tool (name : String) (args : List (String × Json))
    (env_token : Option String) (resp : HttpResponse)
    (h1 : name ≠ "get_accounts") (h2 : name ≠ "trigger_rule") :
    call_tool name args env_token resp =
      { clientCalled := false, requests := []
        rendered := .plainText ("Unknown tool: " ++ name) } ∧
    isErrorShaped (call_tool name args env_token resp).rendered = false := by
  simp [call_tool, h1, h2, isErrorShaped]

/-- C7 witness: evaluated at an unknown tool name. -/
theorem c7_unknown_tool_witness :
    call_tool "list_rules" [] none
      { status_code := 200, body_text := "ok", body_json := none } =
      { clientCalled := false, requests := []
        rendered := .plainText "Unknown tool: list_rules" } :=
  (c7_unknown_tool "list_rules" [] none
    { status_code := 200, body_text := "ok", body_json := none }
    (by decide) (by decide)).1

/-- C3: a non-2xx response whose body is a JSON object carrying both code
and message makes both operations raise a SequenceError taking code and
message verbatim from the body and the transport status code. -/
theorem c3_error_body_verbatim (tok : Option String) (resp : HttpResponse)
    (members : List (String × Json)) (c m : Json)
    (rid sec : String) (pl : Option Json) (key : Option String)
    (htok : strTruthy tok = true)
    (hnon2xx : resp.status_code < 200 ∨ 300 ≤ resp.status_code)
    (hobj : bodyObj resp.body_json = some members)
    (hcode : jget members "code" = some c)
    (hmsg : jget members "message" = some m) :
    (get_accounts tok resp).outcome =
      .error (.sequenceError
        { code := c, message := m, status_code := some resp.status_code }) ∧
    (trigger_rule rid sec pl key resp).outcome =
      .error (.sequenceError
        { code := c, message := m, status_code := some resp.status_code }) := by
  have h200 : resp.status_code ≠ 200 := by omega
  simp [get_accounts, trigger_rule, htok, h200, handle_error_response,
        hobj, hcode, hmsg]

/-- C3 witness: evaluated at a 401 response with a structured error body. -/
theorem c3_error_body_verbatim_witness :
    (get_accounts (some "t")
      { status_code := 401, body_text := "unauthorized"
        body_json := some (.obj [("code", .str "INVALID_ACCESS_TOKEN"),
                                 ("message", .str "Unauthorized")]) }).outcome =
      .error (.sequenceError
        { code := .str "INVALID_ACCESS_TOKEN", message := .str "Unauthorized"
          status_code := some 401 }) :=
  (c3_error_body_verbatim (some "t")
    { status_code := 401, body_text := "unauthorized"
      body_json := some (.obj [("code", .str "INVALID_ACCESS_TOKEN"),
                               ("message", .str "Unauthorized")]) }
    [("code", .str "INVALID_ACCESS_TOKEN"), ("message", .str "Unauthorized")]
    (.str "INVALID_ACCESS_TOKEN") (.str "Unauthorized")
    "r" "s" none none rfl (Or.inr (by decide)) rfl rfl rfl).1

/-- C5 counterexample: an idempotency_key argument supplied as the empty
string is a supplied key, yet the outgoing request carries no
idempotency-key header, so the claimed iff fails. -/
theorem c5_counterexample :
    (some "" ≠ (none : Option String)) ∧
    headerGet (triggerRequest "ru_1" "sec" none (some "")).headers
      "idempotency-key" = none := by
  exact ⟨by simp, rfl⟩

/-- C5 amended: the outgoing trigger request carries an idempotency-key
header equal to the supplied key if and only if the supplied key is
non-empty; when the key is absent or empty the header is omitted
entirely. -/
theorem c5_idempotency_header (rid sec : String) (pl : Option Json)
    (key : Option String) :
    headerGet (triggerRequest rid sec pl key).headers "idempotency-key" =
      (match key with
       | some k => if k.isEmpty then none else some k
       | none => none) := by
  cases key with
  | none => rfl
  | some k =>
      cases hk : k.isEmpty <;> simp [triggerRequest, headerGet, hk]

/-- C6: a trigger_rule invocation with rule_id missing from the argument
bag renders a local error envelope whose message names rule_id, without
calling the client or issuing a request; with rule_id present and truthy
but api_secret missing, likewise for api_secret. -/
theorem c6_missing_arguments (args : List (String × Json)) (resp : HttpResponse) :
    (jget args "rule_id" = none →
      handle_trigger_rule args resp =
        { clientCalled := false, requests := []
          outcome := .ok (.jsonPayload (errorEnvelope "rule_id is required")) } ∧
      ContainsSub "rule_id is required" "rule_id") ∧
    (pyTruthyOpt (jget args "rule_id") = true →
     jget args "api_secret" = none →
      handle_trigger_rule args resp =
        { clientCalled := false, requests := []
          outcome := .ok (.jsonPayload (errorEnvelope "api_secret is required")) } ∧
      ContainsSub "api_secret is required" "api_secret") := by
  constructor
  · intro h
    refine ⟨?_, [], " is required".data, by decide⟩
    simp [handle_trigger_rule, h, pyTruthyOpt]
  · intro h1 h2
    refine ⟨?_, [], " is required".data, by decide⟩
    simp [handle_trigger_rule, h1, h2, show pyTruthyOpt none = false from rfl]

/-- C6 witness: evaluated on argument bags missing rule_id and missing
api_secret. -/
theorem c6_missing_arguments_witness :
    handle_trigger_rule [("api_secret", .str "s")]
      { status_code := 200, body_text := "ok", body_json := none } =
      { clientCalled := false, requests := []
        outcome := .ok (.jsonPayload (errorEnvelope "rule_id is required")) } ∧
    handle_trigger_rule [("rule_id", .str "ru_1")]
      { status_code := 200, body_text := "ok", body_json := none } =
      { clientCalled := false, requests := []
        outcome := .ok (.jsonPayload (errorEnvelope "api_secret is required")) } :=
  ⟨((c6_missing_arguments [("api_secret", .str "s")]
      { status_code := 200, body_text := "ok", body_json := none }).1 rfl).1,
   ((c6_missing_arguments [("rule_id", .str "ru_1")]
      { status_code := 200, body_text := "ok", body_json := none }).2 rfl rfl).1⟩

/-- C1 counterexample: with a configured token, a 200 response whose body
is a JSON object lacking the required response fields makes get_accounts
raise a pydantic validation error, a failure that is not a SequenceError,
so not every client failure surfaces as a single DomainError. -/
theorem c1_counterexample :
    isFailure (get_accounts (some "tok")
      { status_code := 200, body_text := "empty object"
        body_json := some (.obj []) }).outcome = true ∧
    isSequenceErrorOutcome (get_accounts (some "tok")
      { status_code := 200, body_text := "empty object"
        body_json := some (.obj []) }).outcome = false := by
  exact ⟨rfl, rfl⟩

/-- C1 amended: only transport failures are normalized: with a configured
token, any non-200 response makes both operations raise exactly the one
normalized SequenceError; but a missing or empty access token makes
get_accounts raise a ValueError with no request issued, a 200 response
with a non-JSON body raises a json-decode error, and a 200 response whose
JSON body fails model validation raises a validation error — none of
these are SequenceError. -/
theorem c1_normalization_boundary (tok : Option String) (resp : HttpResponse)
    (rid sec : String) (pl : Option Json) (key : Option String) :
    (strTruthy tok = false →
      get_accounts tok resp =
        { requests := []
          outcome := .error (.valueError
            "Access token is required for fetching accounts") } ∧
      isSequenceErrorOutcome (get_accounts tok resp).outcome = false) ∧
    (strTruthy tok = true → resp.status_code ≠ 200 →
      (get_accounts tok resp).outcome =
        .error (.sequenceError (handle_error_response resp)) ∧
      (trigger_rule rid sec pl key resp).outcome =
        .error (.sequenceError (handle_error_response resp))) ∧
    (strTruthy tok = true → resp.status_code = 200 → resp.body_json = none →
      (get_accounts tok resp).outcome = .error .jsonDecodeError) ∧
    (strTruthy tok = true → resp.status_code = 200 →
      ∀ j, resp.body_json = some j → vAccountsResponse j = none →
      (get_accounts tok resp).outcome = .error .validationError) := by
  refine ⟨fun h => ?_, fun ht h200 => ?_, fun ht h200 hb => ?_,
          fun ht h200 j hb hv => ?_⟩
  · simp [get_accounts, h, isSequenceErrorOutcome]
  · simp [get_accounts, trigger_rule, ht, h200]
  · simp [get_accounts, ht, h200, accountsSuccess, hb]
  · simp [get_accounts, ht, h200, accountsSuccess, hb, hv]

/-- C1 amended witness: evaluated at a missing token, a 401 response, a
200 non-JSON response and a 200 malformed-JSON response. -/
theorem c1_normalization_boundary_witness :
    get_accounts none
      { status_code := 200, body_text := "ok", body_json := none } =
      { requests := []
        outcome := .error (.valueError
          "Access token is required for fetching accounts") } ∧
    (get_accounts (some "t")
      { status_code := 401, body_text := "no", body_json := none }).outcome =
      .error (.sequenceError (handle_error_response
        { status_code := 401, body_text := "no", body_json := none })) ∧
    (get_accounts (some "t")
      { status_code := 200, body_text := "plain text", body_json := none }).outcome =
      .error .jsonDecodeError ∧
    (get_accounts (some "t")
      { status_code := 200, body_text := "empty list"
        body_json := some (.arr []) }).outcome = .error .validationError :=
  ⟨((c1_normalization_boundary none
      { status_code := 200, body_text := "ok", body_json := none }
      "r" "s" none none).1 rfl).1,
   ((c1_normalization_boundary (some "t")
      { status_code := 401, body_text := "no", body_json := none }
      "r" "s" none none).2.1 rfl (by decide)).1,
   (c1_normalization_boundary (some "t")
      { status_code := 200, body_text := "plain text", body_json := none }
      "r" "s" none none).2.2.1 rfl rfl rfl,
   (c1_normalization_boundary (some "t")
      { status_code := 200, body_text := "empty list"
        body_json := some (.arr []) }
      "r" "s" none none).2.2.2 rfl rfl (.arr []) rfl rfl⟩

/-- C2 counterexample: a client constructed without an access token fails
get_accounts with a ValueError, not a SequenceError carrying the code
no credential configured; the no-request part of the claim does hold. -/
theorem c2_counterexample :
    (get_accounts none
      { status_code := 401, body_text := "no", body_json := none }).requests = [] ∧
    (get_accounts none
      { status_code := 401, body_text := "no", body_json := none }).outcome =
      .error (.valueError "Access token is required for fetching accounts") ∧
    isSequenceErrorOutcome (get_accounts none
      { status_code := 401, body_text := "no", body_json := none }).outcome =
      false := by
  exact ⟨rfl, rfl, rfl⟩

/-- C2 amended: a client whose access token is absent (or empty, which the
truthiness check treats the same) fails get_accounts immediately with a
local ValueError whose message is Access token is required for fetching
accounts, issuing no network request; the failure is not a SequenceError
and so carries no error code and no status code. -/
theorem c2_no_token_local_failure (tok : Option String) (resp : HttpResponse)
    (h : strTruthy tok = false) :
    get_accounts tok resp =
      { requests := []
        outcome := .error (.valueError
          "Access token is required for fetching accounts") } ∧
    isSequenceErrorOutcome (get_accounts tok resp).outcome = false := by
  simp [get_accounts, h, isSequenceErrorOutcome]

/-- C2 amended witness: evaluated at an absent token. -/
theorem c2_no_token_local_failure_witness :
    get_accounts none
      { status_code := 200, body_text := "ok", body_json := none } =
      { requests := []
        outcome := .error (.valueError
          "Access token is required for fetching accounts") } :=
  (c2_no_token_local_failure none
    { status_code := 200, body_text := "ok", body_json := none } rfl).1

/-- C4 counterexample: a 500 response whose body is a JSON object missing
both code and message yields the dict-get defaults UNKNOWN_ERROR and
Unknown error, not the claimed HTTP_ERROR, and the message does not
mention the status. -/
theorem c4_counterexample :
    (get_accounts (some "t")
      { status_code := 500, body_text := "empty object"
        body_json := some (.obj []) }).outcome =
      .error (.sequenceError
        { code := .str "UNKNOWN_ERROR", message := .str "Unknown error"
          status_code := some 500 }) ∧
    Json.str "UNKNOWN_ERROR" ≠ Json.str "HTTP_ERROR" := by
  refine ⟨rfl, ?_⟩
  simp

/-- C4 amended: only a body that fails JSON-object parsing yields the
synthesized HTTP_ERROR whose message embeds the status code and body
text; a body that parses as a JSON object with code and message missing
yields the defaults UNKNOWN_ERROR and Unknown error instead; both cases
carry the transport status code. -/
theorem c4_unparseable_body (resp : HttpResponse)
    (members : List (String × Json)) :
    (bodyObj resp.body_json = none →
      handle_error_response resp =
        { code := .str "HTTP_ERROR"
          message := .str ("HTTP " ++ toString resp.status_code ++ ": " ++
            resp.body_text)
          status_code := some resp.status_code } ∧
      ContainsSub
        ("HTTP " ++ toString resp.status_code ++ ": " ++ resp.body_text)
        (toString resp.status_code)) ∧
    (bodyObj resp.body_json = some members →
     jget members "code" = none → jget members "message" = none →
      handle_error_response resp =
        { code := .str "UNKNOWN_ERROR", message := .str "Unknown error"
          status_code := some resp.status_code }) := by
  constructor
  · intro h
    refine ⟨by simp [handle_error_response, h], "HTTP ".data,
            (": " ++ resp.body_text).data, ?_⟩
    simp [String.data_append]
  · intro h hc hm
    simp [handle_error_response, h, hc, hm]

/-- C4 amended witness: evaluated at a non-JSON body and at an empty JSON
object body. -/
theorem c4_unparseable_body_witness :
    handle_error_response
      { status_code := 500, body_text := "Internal Server Error"
        body_json := none } =
      { code := .str "HTTP_ERROR"
        message := .str "HTTP 500: Internal Server Error"
        status_code := some 500 } ∧
    handle_error_response
      { status_code := 502, body_text := "empty object"
        body_json := some (.obj []) } =
      { code := .str "UNKNOWN_ERROR", message := .str "Unknown error"
        status_code := some 502 } :=
  ⟨((c4_unparseable_body
      { status_code := 500, body_text := "Internal Server Error"
        body_json := none } []).1 rfl).1,
   (c4_unparseable_body
      { status_code := 502, body_text := "empty object"
        body_json := some (.obj []) } []).2 rfl rfl rfl⟩

/-- C8 counterexample: a 200 accounts response whose balances carry both
an amount and an error, and neither an amount nor an error, is accepted
verbatim: the claimed mutual-exclusivity invariant is not enforced. -/
theorem c8_counterexample :
    (get_accounts (some "t")
      { status_code := 200, body_text := "ok"
        body_json := some (.obj
          [("message", .str "OK"), ("requestId", .str "r1"),
           ("data", .obj
             [("accounts", .arr
               [.obj [("id", .str "1"), ("name", .str "A"),
                      ("balance", .obj [("amountInDollars", .num 5),
                                        ("error", .str "boom")]),
                      ("type", .str "Pod")],
                .obj [("id", .str "2"), ("name", .str "B"),
                      ("balance", .obj [("amountInDollars", .null)]),
                      ("type", .str "Account")]]),
              ("errors", .arr [])])]) }).outcome =
      .ok [{ id := "1", name := "A"
             balance := { amount_in_dollars := some 5, error := some "boom" }
             type := "Pod" },
           { id := "2", name := "B"
             balance := { amount_in_dollars := none, error := none }
             type := "Account" }] := by
  rfl

/-- C8 amended: the balance model takes amount and error independently
from the body: the amountInDollars key is required (null allowed) and
error is optional defaulting to null, so balances with both fields
present and with both fields absent are accepted alongside the two
intended shapes; no mutual-exclusivity invariant is enforced. -/
theorem c8_balance_fields_independent :
    vAccountBalance (.obj [("amountInDollars", .num 1)]) =
      some { amount_in_dollars := some 1, error := none } ∧
    vAccountBalance (.obj [("amountInDollars", .null), ("error", .str "e")]) =
      some { amount_in_dollars := none, error := some "e" } ∧
    vAccountBalance (.obj [("amountInDollars", .num 1), ("error", .str "e")]) =
      some { amount_in_dollars := some 1, error := some "e" } ∧
    vAccountBalance (.obj [("amountInDollars", .null)]) =
      some { amount_in_dollars := none, error := none } ∧
    (∀ members : List (String × Json),
      jget members "amountInDollars" = none →
      vAccountBalance (.obj members) = none) := by
  refine ⟨rfl, rfl, rfl, rfl, fun members h => ?_⟩
  simp [vAccountBalance, h]

/-- C8 amended witness: the required-alias clause evaluated at an empty
object. -/
theorem c8_balance_fields_independent_witness :
    vAccountBalance (.obj []) = none :=
  c8_balance_fields_independent.2.2.2.2 [] rfl

end SequenceMcp
